import Mathlib

/-!
Verification of `ts_helpers`: a shallow embedding of the CSV bulk loader
(`src/import_csv_to_sql.py`) and of the metric-defaulting loop of
`get_project_stats` (`src/ts_predictions.py`), with theorems settling the
specification's claims about them.

The loader is modelled at the level the script observes: files are already
parsed CSV row lists (Python's `csv.reader` yields `[]` for a blank line and
raises `StopIteration` on an empty file), the database is an association list
of tables keyed by (schema, tablename), and every SQL statement the script
issues is recorded in a log.  The outcome of a server-side `COPY` depends on
the bytes of the file, which the embedding does not carry; it is therefore
supplied by an environment mapping file paths to outcomes, and the theorems
quantify over all environments.
-/

namespace TsHelpers

/-- Generic association-list update: replace the binding of `k` if present,
otherwise append it.  Used for both the file system and the table catalog. -/
def setAssoc {κ α : Type} [DecidableEq κ] : List (κ × α) → κ → α → List (κ × α)
  | [], k, v => [(k, v)]
  | (k', v') :: rest, k, v =>
      if k' = k then (k, v) :: rest else (k', v') :: setAssoc rest k v

/-- Generic association-list lookup (first binding wins). -/
def getAssoc {κ α : Type} [DecidableEq κ] : List (κ × α) → κ → Option α
  | [], _ => none
  | (k', v') :: rest, k => if k' = k then some v' else getAssoc rest k

/-- Generic association-list deletion of every binding of `k`. -/
def delAssoc {κ α : Type} [DecidableEq κ] : List (κ × α) → κ → List (κ × α)
  | [], _ => []
  | (k', v') :: rest, k =>
      if k' = k then delAssoc rest k else (k', v') :: delAssoc rest k

/-- A declared column of the target table: its name and its declared SQL
type.  `csv_to_table` declares every column as `text`. -/
structure Column where
  name : String
  ty : String
deriving DecidableEq, Repr

/-- A relational table: ordered column list and ordered data rows. -/
structure Table where
  cols : List Column
  rows : List (List String)
deriving DecidableEq, Repr

/-- The table catalog of the database, keyed by (schema, tablename). -/
structure DbState where
  tables : List ((String × String) × Table)
deriving DecidableEq, Repr

/-- `DROP TABLE IF EXISTS schema.tablename`. -/
def dropTable (db : DbState) (schema tablename : String) : DbState :=
  ⟨delAssoc db.tables (schema, tablename)⟩

/-- `CREATE TABLE schema.tablename (c1 text, c2 text, ...)`: one `text`
column per header entry, in header order, no rows. -/
def createTable (db : DbState) (schema tablename : String)
    (header : List String) : DbState :=
  ⟨setAssoc db.tables (schema, tablename)
    ⟨header.map (fun c => ⟨c, "text"⟩), []⟩⟩

/-- Look up a table in the catalog. -/
def lookupTable (db : DbState) (schema tablename : String) : Option Table :=
  getAssoc db.tables (schema, tablename)

/-- `COPY schema.tablename FROM file`: append the file's data rows to the
table.  Postgres `COPY` is atomic, so this is only applied on success. -/
def copyInto (db : DbState) (schema tablename : String)
    (dataRows : List (List String)) : DbState :=
  match lookupTable db schema tablename with
  | none => db
  | some t => ⟨setAssoc db.tables (schema, tablename) ⟨t.cols, t.rows ++ dataRows⟩⟩

/-- `SELECT count(*) FROM schema.tablename` (0 if the table is missing,
which a successful run never observes). -/
def rowCount (db : DbState) (schema tablename : String) : Nat :=
  match lookupTable db schema tablename with
  | none => 0
  | some t => t.rows.length

/-- The file system: paths mapped to parsed CSV contents (each file is its
ordered list of rows; the first row, when present, is the header). -/
structure FS where
  files : List (String × List (List String))
deriving DecidableEq, Repr

/-- Read and parse a file; `none` models `FileNotFoundError`. -/
def lookupFile (fs : FS) (p : String) : Option (List (List String)) :=
  getAssoc fs.files p

/-- Write parsed rows to a path, creating or overwriting the file.  This is
what `pandas.to_csv` does on the fallback path. -/
def writeFile (fs : FS) (p : String) (rows : List (List String)) : FS :=
  ⟨setAssoc fs.files p rows⟩

/-- The possible outcomes of a server-side bulk `COPY` of a given file:
success, a `DataError` (SQLSTATE class 22, the kind `csv_to_table` catches),
or any other database error. -/
inductive CopyOutcome where
  | ok
  | dataErr
  | otherErr
deriving DecidableEq, Repr

/-- Environment: the `COPY` outcome for each file path.  Paths not listed
copy successfully.  The theorems quantify over all environments. -/
structure Env where
  copyOut : List (String × CopyOutcome)
deriving DecidableEq, Repr

/-- Outcome of `COPY ... FROM p` under environment `env`. -/
def copyResult (env : Env) (p : String) : CopyOutcome :=
  match getAssoc env.copyOut p with
  | some o => o
  | none => CopyOutcome.ok

/-- The Python exceptions the scripts can raise or observe. -/
inductive PyError where
  /-- `FileNotFoundError` from `open(file_name)`. -/
  | fileNotFound
  /-- `StopIteration` from `next(csv.reader(f))` on an empty file. -/
  | stopIteration
  /-- `sqlalchemy.exc.DataError` escaping the retry `COPY`. -/
  | dataError
  /-- any other database error raised by a statement. -/
  | otherDbError
  /-- statement issued on a closed connection. -/
  | connClosed
  /-- `NameError`: `conn` unbound in `main`'s `finally` block. -/
  | nameError
deriving DecidableEq, Repr

/-- Every SQL statement `csv_to_table` can issue, as recorded in the log. -/
inductive Stmt where
  | drop (schema tablename : String)
  | create (schema tablename : String) (header : List String)
  | copy (schema tablename path : String)
  | commit
  | selectCount (schema tablename : String)
deriving DecidableEq, Repr

/-- The state threaded through `csv_to_table`: database, file system,
whether the connection is open, lines printed so far, and the log of SQL
statements issued so far. -/
structure LoadState where
  db : DbState
  fs : FS
  connOpen : Bool
  printed : List String
  log : List Stmt
deriving DecidableEq, Repr

/-- Shallow embedding of `csv_to_table(tablename, schema, file_name, conn)`
(`src/import_csv_to_sql.py`, lines 53-95).  The Python function, in order:
executes `DROP TABLE IF EXISTS`; opens the file and reads the first CSV row
as the header (raising `FileNotFoundError` or `StopIteration`); executes
`CREATE TABLE` with one `text` column per header entry; attempts
`COPY ... FROM file_name` plus `commit`, and on `exc.DataError` only,
rewrites the file via pandas to `file_name + '_tmp'` and re-attempts
`COPY` plus `commit` from that path once, uncaught on failure; queries
`SELECT count(*)`, prints it, closes the connection, and returns `None`
(there is no `return` statement; the unused `recursed` parameter is
omitted).  Errors carry the state at the point of raising. -/
def csv_to_table (tablename schema file_name : String) (env : Env)
    (st : LoadState) : Except (PyError × LoadState) (LoadState × Option Nat) :=
  if st.connOpen = false then Except.error (PyError.connClosed, st) else
  -- Delete prior table
  let st := { st with db := dropTable st.db schema tablename,
                      log := st.log ++ [Stmt.drop schema tablename] }
  -- create the table
  match lookupFile st.fs file_name with
  | none => Except.error (PyError.fileNotFound, st)
  | some rows =>
    match rows.head? with
    | none => Except.error (PyError.stopIteration, st)
    | some header =>
      let st := { st with db := createTable st.db schema tablename header,
                          log := st.log ++ [Stmt.create schema tablename header] }
      -- Load data into the table
      let st := { st with log := st.log ++ [Stmt.copy schema tablename file_name] }
      match copyResult env file_name with
      | CopyOutcome.otherErr => Except.error (PyError.otherDbError, st)
      | CopyOutcome.ok =>
        let st := { st with db := copyInto st.db schema tablename (rows.drop 1),
                            log := st.log ++ [Stmt.commit] }
        let n := rowCount st.db schema tablename
        let st := { st with log := st.log ++ [Stmt.selectCount schema tablename],
                            printed := st.printed ++ [toString n ++ " rows loaded."],
                            connOpen := false }
        Except.ok (st, none)
      | CopyOutcome.dataErr =>
        -- use pandas to get rid of bad encoding issues
        let new_filename := file_name ++ "_tmp"
        let st := { st with fs := writeFile st.fs new_filename rows }
        let st := { st with log := st.log ++ [Stmt.copy schema tablename new_filename] }
        match copyResult env new_filename with
        | CopyOutcome.dataErr => Except.error (PyError.dataError, st)
        | CopyOutcome.otherErr => Except.error (PyError.otherDbError, st)
        | CopyOutcome.ok =>
          let st := { st with db := copyInto st.db schema tablename (rows.drop 1),
                              log := st.log ++ [Stmt.commit] }
          let n := rowCount st.db schema tablename
          let st := { st with log := st.log ++ [Stmt.selectCount schema tablename],
                              printed := st.printed ++ [toString n ++ " rows loaded."],
                              connOpen := false }
          Except.ok (st, none)

/-- The user-facing hint `main` prints when the file is missing. -/
def fileHint : String :=
  "You may want to try giving the full filepath to the file, instead of the relative path."

/-- The observable outcome of one invocation of `main` after argument
collection: final database and file system, everything printed, the SQL log,
whether the connection ended closed, whether the engine was disposed, and
the exception escaping `main`, if any. -/
structure MainOut where
  db : DbState
  fs : FS
  printed : List String
  log : List Stmt
  connClosed : Bool
  engineDisposed : Bool
  err : Option PyError
deriving DecidableEq, Repr

/-- Shallow embedding of `main` (`src/import_csv_to_sql.py`, lines 7-26)
after `get_args`: print the loading banner; `try` to acquire the connection
(`connectOk` says whether `engine.connect()` succeeds) and run
`csv_to_table`; `except FileNotFoundError` print the hint; `finally` call
`conn.close()` and `engine.dispose()`.  If `engine.connect()` itself raised,
`conn` is unbound, so the `finally` block raises `NameError` at
`conn.close()` and `engine.dispose()` is never executed.  On an exception
other than `FileNotFoundError` the `finally` block still runs but `Done!`
is not printed and the exception propagates.  The banner `main` prints
before the `try` block: -/
def loadBanner (file_name database schema tablename : String) : String :=
  "Loading " ++ file_name ++ " into " ++ database ++ "." ++ schema
    ++ "." ++ tablename

/-- The state `main` hands to `csv_to_table` once the connection is up. -/
def initState (file_name database schema tablename : String)
    (db : DbState) (fs : FS) : LoadState :=
  { db := db, fs := fs, connOpen := true,
    printed := [loadBanner file_name database schema tablename], log := [] }

def main (file_name tablename database schema : String) (env : Env)
    (connectOk : Bool) (db : DbState) (fs : FS) : MainOut :=
  if connectOk = false then
    { db := db, fs := fs,
      printed := [loadBanner file_name database schema tablename], log := [],
      connClosed := false, engineDisposed := false,
      err := some PyError.nameError }
  else
    let st : LoadState := initState file_name database schema tablename db fs
    match csv_to_table tablename schema file_name env st with
    | Except.ok (st, _) =>
        { db := st.db, fs := st.fs, printed := st.printed ++ ["Done!"],
          log := st.log, connClosed := true, engineDisposed := true,
          err := none }
    | Except.error (PyError.fileNotFound, st) =>
        { db := st.db, fs := st.fs,
          printed := st.printed ++ [fileHint, "Done!"], log := st.log,
          connClosed := true, engineDisposed := true, err := none }
    | Except.error (e, st) =>
        { db := st.db, fs := st.fs, printed := st.printed, log := st.log,
          connClosed := true, engineDisposed := true, err := some e }

/-- A DataRobot project as `get_project_stats` uses it: its name, id and
its own default accuracy metric (`p.metric`). -/
structure Project where
  project_name : String
  id : String
  metric : String
deriving DecidableEq, Repr

/-- Shallow embedding of the metric flow of the `get_project_stats` loop
(`src/ts_predictions.py`, lines 80-96).  The loop iterates over `projects`
with the function argument `metric` as a loop-scoped variable: at each
iteration, if `metric is None` it is assigned `p.metric`, and the current
value of `metric` is then passed to `get_top_models_from_projects` to rank
that project's models.  This function returns, per project in order, the
pair (project name, metric value passed for its ranking), threading the
mutated `metric` variable across iterations exactly as the loop does. -/
def statsMetrics : Option String → List Project → List (String × String)
  | _, [] => []
  | metric, p :: ps =>
      let m := match metric with
        | none => p.metric
        | some m0 => m0
      (p.project_name, m) :: statsMetrics (some m) ps

/-! ### Association-list lemmas -/

theorem getAssoc_setAssoc_self {κ α : Type} [DecidableEq κ]
    (l : List (κ × α)) (k : κ) (v : α) :
    getAssoc (setAssoc l k v) k = some v := by
  induction l with
  | nil => simp [setAssoc, getAssoc]
  | cons hd tl ih =>
      by_cases h : hd.1 = k
      · simp [setAssoc, getAssoc, h]
      · simp [setAssoc, getAssoc, h, ih]

theorem getAssoc_setAssoc_ne {κ α : Type} [DecidableEq κ]
    (l : List (κ × α)) (k k' : κ) (v : α) (h : k ≠ k') :
    getAssoc (setAssoc l k v) k' = getAssoc l k' := by
  induction l with
  | nil => simp [setAssoc, getAssoc, h]
  | cons hd tl ih =>
      by_cases hk : hd.1 = k
      · simp [setAssoc, getAssoc, hk, h]
      · simp [setAssoc, getAssoc, hk, ih]

theorem setAssoc_setAssoc_self {κ α : Type} [DecidableEq κ]
    (l : List (κ × α)) (k : κ) (v w : α) :
    setAssoc (setAssoc l k v) k w = setAssoc l k w := by
  induction l with
  | nil => simp [setAssoc]
  | cons hd tl ih =>
      by_cases hk : hd.1 = k
      · simp [setAssoc, hk]
      · simp [setAssoc, hk, ih]

theorem getAssoc_delAssoc_self {κ α : Type} [DecidableEq κ]
    (l : List (κ × α)) (k : κ) :
    getAssoc (delAssoc l k) k = none := by
  induction l with
  | nil => simp [delAssoc, getAssoc]
  | cons hd tl ih =>
      by_cases hk : hd.1 = k
      · simp [delAssoc, hk, ih]
      · simp [delAssoc, getAssoc, hk, ih]

theorem delAssoc_delAssoc_self {κ α : Type} [DecidableEq κ]
    (l : List (κ × α)) (k : κ) :
    delAssoc (delAssoc l k) k = delAssoc l k := by
  induction l with
  | nil => simp [delAssoc]
  | cons hd tl ih =>
      by_cases hk : hd.1 = k
      · simp [delAssoc, hk, ih]
      · simp [delAssoc, hk, ih]

/-- The fallback temporary path differs from the source path. -/
theorem tmp_ne_self (p : String) : p ++ "_tmp" ≠ p := by
  intro h
  have hlen : (p ++ "_tmp").length = p.length := by rw [h]
  rw [String.length_append] at hlen
  have h4 : ("_tmp" : String).length = 4 := rfl
  rw [h4] at hlen
  omega

/-! ### Loader lemmas -/

theorem lookupTable_createTable (db : DbState) (sc tn : String)
    (header : List String) :
    lookupTable (createTable db sc tn header) sc tn
      = some ⟨header.map (fun c => ⟨c, "text"⟩), []⟩ := by
  simp [lookupTable, createTable, getAssoc_setAssoc_self]

/-- The table produced by the drop / create / copy sequence. -/
theorem lookupTable_after_load (db : DbState) (sc tn : String)
    (header : List String) (dataRows : List (List String)) :
    lookupTable (copyInto (createTable (dropTable db sc tn) sc tn header) sc tn dataRows)
      sc tn = some ⟨header.map (fun c => ⟨c, "text"⟩), dataRows⟩ := by
  simp [copyInto, lookupTable_createTable, lookupTable, createTable,
        getAssoc_setAssoc_self, setAssoc_setAssoc_self]

/-- C1: for every source file with a header and N data rows, a successful
run of `csv_to_table` leaves the target table with exactly N rows and with
a column list identical, in order, to the source header, every column
declared with type `text`. -/
theorem c1_successful_load_schema_and_rowcount
    (tn sc fn : String) (env : Env) (st st' : LoadState) (r : Option Nat)
    (header : List String) (dataRows : List (List String))
    (hconn : st.connOpen = true)
    (hfile : lookupFile st.fs fn = some (header :: dataRows))
    (hok : csv_to_table tn sc fn env st = Except.ok (st', r)) :
    ∃ t, lookupTable st'.db sc tn = some t
      ∧ t.cols.map Column.name = header
      ∧ (∀ c ∈ t.cols, c.ty = "text")
      ∧ t.rows.length = dataRows.length := by
  cases h1 : copyResult env fn with
  | otherErr => simp [csv_to_table, hconn, hfile, h1] at hok
  | ok =>
      simp only [csv_to_table, hconn, hfile, h1] at hok
      simp only [Bool.true_eq_false, if_false, List.head?_cons, List.drop_succ_cons,
        List.drop_zero, Except.ok.injEq, Prod.mk.injEq] at hok
      obtain ⟨hst, -⟩ := hok
      subst hst
      exact ⟨_, lookupTable_after_load st.db sc tn header dataRows, by simp [Function.comp_def], by
        intro c hc
        simp only [List.mem_map] at hc
        obtain ⟨x, -, hx⟩ := hc
        rw [← hx], rfl⟩
  | dataErr =>
      cases h2 : copyResult env (fn ++ "_tmp") with
      | dataErr => simp [csv_to_table, hconn, hfile, h1, h2] at hok
      | otherErr => simp [csv_to_table, hconn, hfile, h1, h2] at hok
      | ok =>
          simp only [csv_to_table, hconn, hfile, h1, h2] at hok
          simp only [Bool.true_eq_false, if_false, List.head?_cons, List.drop_succ_cons,
            List.drop_zero, Except.ok.injEq, Prod.mk.injEq] at hok
          obtain ⟨hst, -⟩ := hok
          subst hst
          exact ⟨_, lookupTable_after_load st.db sc tn header dataRows, by simp [Function.comp_def], by
            intro c hc
            simp only [List.mem_map] at hc
            obtain ⟨x, -, hx⟩ := hc
            rw [← hx], rfl⟩

theorem delAssoc_setAssoc_self {κ α : Type} [DecidableEq κ]
    (l : List (κ × α)) (k : κ) (v : α) :
    delAssoc (setAssoc l k v) k = delAssoc l k := by
  induction l with
  | nil => simp [setAssoc, delAssoc]
  | cons hd tl ih =>
      by_cases hk : hd.1 = k
      · obtain ⟨k', v'⟩ := hd
        simp only at hk
        subst hk
        simp [setAssoc, delAssoc]
      · simp [setAssoc, delAssoc, hk, ih]

theorem lookupTable_dropTable (db : DbState) (sc tn : String) :
    lookupTable (dropTable db sc tn) sc tn = none := by
  simp [lookupTable, dropTable, getAssoc_delAssoc_self]

theorem dropTable_dropTable (db : DbState) (sc tn : String) :
    dropTable (dropTable db sc tn) sc tn = dropTable db sc tn := by
  simp [dropTable, delAssoc_delAssoc_self]

theorem dropTable_createTable (db : DbState) (sc tn : String)
    (header : List String) :
    dropTable (createTable db sc tn header) sc tn = dropTable db sc tn := by
  simp [dropTable, createTable, delAssoc_setAssoc_self]

theorem dropTable_copyInto (db : DbState) (sc tn : String)
    (d : List (List String)) :
    dropTable (copyInto db sc tn d) sc tn = dropTable db sc tn := by
  unfold copyInto
  cases h : lookupTable db sc tn with
  | none => rfl
  | some t => simp [dropTable, delAssoc_setAssoc_self]

/-- The state carried out of `csv_to_table`, whether it returned or raised. -/
def endState : Except (PyError × LoadState) (LoadState × Option Nat) → LoadState
  | Except.ok (st, _) => st
  | Except.error (_, st) => st

/-- Number of `COPY` statements in a log. -/
def numCopies (l : List Stmt) : Nat :=
  (l.filter fun s => match s with
    | Stmt.copy _ _ _ => true
    | _ => false).length

/-- C9: on every successful run, `csv_to_table` closes the connection
object passed to it before returning, so the handle cannot be used for
further statements afterwards. -/
theorem c9_success_closes_connection
    (tn sc fn : String) (env : Env) (st st' : LoadState) (r : Option Nat)
    (hok : csv_to_table tn sc fn env st = Except.ok (st', r)) :
    st'.connOpen = false := by
  by_cases hc : st.connOpen = false
  · simp [csv_to_table, hc] at hok
  · cases hf : lookupFile st.fs fn with
    | none => simp [csv_to_table, hc, hf] at hok
    | some rows =>
      cases rows with
      | nil => simp [csv_to_table, hc, hf] at hok
      | cons header dataRows =>
        cases h1 : copyResult env fn with
        | otherErr => simp [csv_to_table, hc, hf, h1] at hok
        | ok =>
            simp only [csv_to_table, hc, hf, Bool.true_eq_false, if_false,
              List.head?_cons, Except.ok.injEq, Prod.mk.injEq, h1] at hok
            obtain ⟨h, -⟩ := hok
            subst h
            rfl
        | dataErr =>
            cases h2 : copyResult env (fn ++ "_tmp") with
            | dataErr => simp [csv_to_table, hc, hf, h1, h2] at hok
            | otherErr => simp [csv_to_table, hc, hf, h1, h2] at hok
            | ok =>
                simp only [csv_to_table, hc, hf, Bool.true_eq_false, if_false,
                  List.head?_cons, Except.ok.injEq, Prod.mk.injEq, h1, h2] at hok
                obtain ⟨h, -⟩ := hok
                subst h
                rfl

/-- C9 witness: a concrete successful run ends with the connection closed. -/
theorem c9_success_closes_connection_witness :
    ∃ st' r, csv_to_table "t" "s" "f.csv" ⟨[]⟩
        ⟨⟨[]⟩, ⟨[("f.csv", [["a", "b"], ["1", "2"]])]⟩, true, [], []⟩
        = Except.ok (st', r) ∧ st'.connOpen = false := by
  refine ⟨endState (csv_to_table "t" "s" "f.csv" ⟨[]⟩
    ⟨⟨[]⟩, ⟨[("f.csv", [["a", "b"], ["1", "2"]])]⟩, true, [], []⟩), none, rfl, ?_⟩
  exact c9_success_closes_connection "t" "s" "f.csv" ⟨[]⟩
    ⟨⟨[]⟩, ⟨[("f.csv", [["a", "b"], ["1", "2"]])]⟩, true, [], []⟩ _ none rfl

/-- C2 counterexample: with a pre-existing destination table `s.t` holding
one row and a nonexistent source path, the run does report file-not-found
(the hint is printed), but the `DROP TABLE IF EXISTS` statement was already
issued before the header read failed, so the pre-existing table is gone:
the claim that no mutation happens and the drop is never issued is false. -/
theorem c2_counterexample :
    let db0 : DbState := ⟨[(("s", "t"), ⟨[⟨"x", "text"⟩], [["1"]]⟩)]⟩
    let out := main "/no/such/file.csv" "t" "d" "s" ⟨[]⟩ true db0 ⟨[]⟩
    lookupTable db0 "s" "t" = some ⟨[⟨"x", "text"⟩], [["1"]]⟩
      ∧ fileHint ∈ out.printed
      ∧ Stmt.drop "s" "t" ∈ out.log
      ∧ lookupTable out.db "s" "t" = none := by
  decide

/-- C2 amended: for every nonexistent file path, the load reports the
file-not-found outcome (the user-facing path hint is printed and the run
ends without an escaping exception), and no table is created or populated —
but the `DROP TABLE IF EXISTS` statement is issued before the header read
fails, so the only statement in the log is the drop and any pre-existing
destination table has been dropped. -/
theorem c2_amended_drop_issued_before_header_read
    (fn tn d sc : String) (env : Env) (db : DbState) (fs : FS)
    (hfile : lookupFile fs fn = none) :
    let out := main fn tn d sc env true db fs
    out.err = none
      ∧ fileHint ∈ out.printed
      ∧ out.log = [Stmt.drop sc tn]
      ∧ out.db = dropTable db sc tn
      ∧ lookupTable out.db sc tn = none
      ∧ out.fs = fs := by
  simp [main, initState, csv_to_table, hfile, lookupTable_dropTable]

/-- C2 witness: the amended theorem applied at the concrete input of the
counterexample. -/
theorem c2_amended_witness :
    let db0 : DbState := ⟨[(("s", "t"), ⟨[⟨"x", "text"⟩], [["1"]]⟩)]⟩
    let out := main "/no/such/file.csv" "t" "d" "s" ⟨[]⟩ true db0 ⟨[]⟩
    out.err = none
      ∧ fileHint ∈ out.printed
      ∧ out.log = [Stmt.drop "s" "t"]
      ∧ out.db = dropTable db0 "s" "t"
      ∧ lookupTable out.db "s" "t" = none
      ∧ out.fs = ⟨[]⟩ :=
  c2_amended_drop_issued_before_header_read "/no/such/file.csv" "t" "d" "s" ⟨[]⟩
    ⟨[(("s", "t"), ⟨[⟨"x", "text"⟩], [["1"]]⟩)]⟩ ⟨[]⟩ (by decide)

theorem rowCount_after_load (db : DbState) (sc tn : String)
    (header : List String) (dataRows : List (List String)) :
    rowCount (copyInto (createTable (dropTable db sc tn) sc tn header) sc tn dataRows)
      sc tn = dataRows.length := by
  simp [rowCount, lookupTable_after_load]

theorem lookupFile_writeFile_self (fs : FS) (p : String)
    (rows : List (List String)) :
    lookupFile (writeFile fs p rows) p = some rows := by
  simp [lookupFile, writeFile, getAssoc_setAssoc_self]

theorem lookupFile_writeFile_ne (fs : FS) (p q : String)
    (rows : List (List String)) (h : p ≠ q) :
    lookupFile (writeFile fs p rows) q = lookupFile fs q := by
  simp [lookupFile, writeFile, getAssoc_setAssoc_ne _ _ _ _ h]

/-- C4 counterexample: a concrete successful run over a file with two data
rows: the queried `count(*)` is 2, yet the value the function hands back to
the caller is `none` (Python's `None`, as `csv_to_table` has no `return`
statement), not the scalar count. -/
theorem c4_counterexample :
    (csv_to_table "t" "s" "f.csv" ⟨[]⟩
        ⟨⟨[]⟩, ⟨[("f.csv", [["a", "b"], ["1", "2"], ["3", "4"]])]⟩, true, [], []⟩).map
      (fun out => (out.2, rowCount out.1.db "s" "t"))
      = Except.ok (none, 2) := by
  rfl

/-- C4 amended: after the load completes, the operation queries
`SELECT count(*)` on the target table and prints the scalar count in a
status line, but returns no value (Python `None`) to the caller. -/
theorem c4_amended_count_printed_not_returned
    (tn sc fn : String) (env : Env) (st st' : LoadState) (r : Option Nat)
    (header : List String) (dataRows : List (List String))
    (hconn : st.connOpen = true)
    (hfile : lookupFile st.fs fn = some (header :: dataRows))
    (hok : csv_to_table tn sc fn env st = Except.ok (st', r)) :
    r = none
      ∧ Stmt.selectCount sc tn ∈ st'.log
      ∧ st'.printed = st.printed ++ [toString dataRows.length ++ " rows loaded."] := by
  cases h1 : copyResult env fn with
  | otherErr => simp [csv_to_table, hconn, hfile, h1] at hok
  | ok =>
      simp only [csv_to_table, hconn, hfile, Bool.true_eq_false, if_false,
        List.head?_cons, List.drop_succ_cons, List.drop_zero,
        Except.ok.injEq, Prod.mk.injEq, h1] at hok
      obtain ⟨hst, hr⟩ := hok
      subst hst
      refine ⟨hr.symm, by simp, by simp [rowCount_after_load]⟩
  | dataErr =>
      cases h2 : copyResult env (fn ++ "_tmp") with
      | dataErr => simp [csv_to_table, hconn, hfile, h1, h2] at hok
      | otherErr => simp [csv_to_table, hconn, hfile, h1, h2] at hok
      | ok =>
          simp only [csv_to_table, hconn, hfile, Bool.true_eq_false, if_false,
            List.head?_cons, List.drop_succ_cons, List.drop_zero,
            Except.ok.injEq, Prod.mk.injEq, h1, h2] at hok
          obtain ⟨hst, hr⟩ := hok
          subst hst
          refine ⟨hr.symm, by simp, by simp [rowCount_after_load]⟩

/-- C4 witness: the amended theorem applied to the counterexample's run. -/
theorem c4_amended_witness :
    let run := csv_to_table "t" "s" "f.csv" ⟨[]⟩
      ⟨⟨[]⟩, ⟨[("f.csv", [["a", "b"], ["1", "2"], ["3", "4"]])]⟩, true, [], []⟩
    (none : Option Nat) = none
      ∧ Stmt.selectCount "s" "t" ∈ (endState run).log
      ∧ (endState run).printed
          = [] ++ [toString [["1", "2"], ["3", "4"]].length ++ " rows loaded."] :=
  c4_amended_count_printed_not_returned "t" "s" "f.csv" ⟨[]⟩
    ⟨⟨[]⟩, ⟨[("f.csv", [["a", "b"], ["1", "2"], ["3", "4"]])]⟩, true, [], []⟩
    _ none ["a", "b"] [["1", "2"], ["3", "4"]] rfl rfl rfl

/-- C3: the re-normalization retry happens if and only if the first bulk
`COPY` fails with the data/encoding error kind: in that case the entire
source contents are rewritten to `file_name + "_tmp"` and the `COPY` is
re-attempted against that path exactly once (two `COPY` statements in
total); a successful or non-data first `COPY` triggers no retry (one `COPY`
statement, file system untouched), a non-data first failure propagates as
an uncaught database error, and any failure of the single retry propagates
uncaught with its own kind. -/
theorem c3_retry_iff_data_error
    (tn sc fn : String) (env : Env) (st : LoadState)
    (header : List String) (dataRows : List (List String))
    (hconn : st.connOpen = true) (hlog : st.log = [])
    (hfile : lookupFile st.fs fn = some (header :: dataRows)) :
    ((copyResult env fn = CopyOutcome.dataErr) ↔
        (endState (csv_to_table tn sc fn env st)).fs
            = writeFile st.fs (fn ++ "_tmp") (header :: dataRows)
          ∧ numCopies (endState (csv_to_table tn sc fn env st)).log = 2)
      ∧ (copyResult env fn = CopyOutcome.ok →
          numCopies (endState (csv_to_table tn sc fn env st)).log = 1
            ∧ (endState (csv_to_table tn sc fn env st)).fs = st.fs)
      ∧ (copyResult env fn = CopyOutcome.otherErr →
          ∃ st', csv_to_table tn sc fn env st
              = Except.error (PyError.otherDbError, st'))
      ∧ (copyResult env fn = CopyOutcome.dataErr →
          Stmt.copy sc tn (fn ++ "_tmp") ∈ (endState (csv_to_table tn sc fn env st)).log
            ∧ (copyResult env (fn ++ "_tmp") = CopyOutcome.ok →
                ∃ st', csv_to_table tn sc fn env st = Except.ok (st', none))
            ∧ (copyResult env (fn ++ "_tmp") = CopyOutcome.dataErr →
                ∃ st', csv_to_table tn sc fn env st
                    = Except.error (PyError.dataError, st'))
            ∧ (copyResult env (fn ++ "_tmp") = CopyOutcome.otherErr →
                ∃ st', csv_to_table tn sc fn env st
                    = Except.error (PyError.otherDbError, st'))) := by
  cases h1 : copyResult env fn with
  | ok =>
      simp only [csv_to_table, hconn, hfile, Bool.true_eq_false, if_false,
        List.head?_cons, h1, endState]
      refine ⟨?_, ?_, by simp, by simp⟩
      · simp [hlog, numCopies, List.filter]
      · intro
        exact ⟨by simp [hlog, numCopies, List.filter], by trivial⟩
  | otherErr =>
      simp only [csv_to_table, hconn, hfile, Bool.true_eq_false, if_false,
        List.head?_cons, h1, endState]
      refine ⟨?_, by simp, by intro; exact ⟨_, rfl⟩, by simp⟩
      simp [hlog, numCopies, List.filter]
  | dataErr =>
      cases h2 : copyResult env (fn ++ "_tmp") with
      | ok =>
          simp only [csv_to_table, hconn, hfile, Bool.true_eq_false, if_false,
            List.head?_cons, h1, h2, endState]
          refine ⟨?_, by simp, by simp, ?_⟩
          · exact ⟨fun _ => ⟨by trivial, by simp [hlog, numCopies, List.filter]⟩,
              fun _ => by trivial⟩
          · intro
            exact ⟨by simp, fun _ => ⟨_, rfl⟩, by simp [h2], by simp [h2]⟩
      | dataErr =>
          simp only [csv_to_table, hconn, hfile, Bool.true_eq_false, if_false,
            List.head?_cons, h1, h2, endState]
          refine ⟨?_, by simp, by simp, ?_⟩
          · exact ⟨fun _ => ⟨by trivial, by simp [hlog, numCopies, List.filter]⟩,
              fun _ => by trivial⟩
          · intro
            exact ⟨by simp, by simp [h2], fun _ => ⟨_, rfl⟩, by simp [h2]⟩
      | otherErr =>
          simp only [csv_to_table, hconn, hfile, Bool.true_eq_false, if_false,
            List.head?_cons, h1, h2, endState]
          refine ⟨?_, by simp, by simp, ?_⟩
          · exact ⟨fun _ => ⟨by trivial, by simp [hlog, numCopies, List.filter]⟩,
              fun _ => by trivial⟩
          · intro
            exact ⟨by simp, by simp [h2], by simp [h2], fun _ => ⟨_, rfl⟩⟩

/-- C3 witness: the retry characterization applied to a concrete run in
which the first `COPY` fails with the data-error kind and the retry
succeeds. -/
theorem c3_retry_iff_data_error_witness :
    let env : Env := ⟨[("f.csv", CopyOutcome.dataErr)]⟩
    let st : LoadState := ⟨⟨[]⟩, ⟨[("f.csv", [["a", "b"], ["x", "y"]])]⟩, true, [], []⟩
    ((copyResult env "f.csv" = CopyOutcome.dataErr) ↔
        (endState (csv_to_table "t" "s" "f.csv" env st)).fs
            = writeFile st.fs ("f.csv" ++ "_tmp") [["a", "b"], ["x", "y"]]
          ∧ numCopies (endState (csv_to_table "t" "s" "f.csv" env st)).log = 2)
      ∧ (copyResult env "f.csv" = CopyOutcome.ok →
          numCopies (endState (csv_to_table "t" "s" "f.csv" env st)).log = 1
            ∧ (endState (csv_to_table "t" "s" "f.csv" env st)).fs = st.fs)
      ∧ (copyResult env "f.csv" = CopyOutcome.otherErr →
          ∃ st', csv_to_table "t" "s" "f.csv" env st
              = Except.error (PyError.otherDbError, st'))
      ∧ (copyResult env "f.csv" = CopyOutcome.dataErr →
          Stmt.copy "s" "t" ("f.csv" ++ "_tmp")
              ∈ (endState (csv_to_table "t" "s" "f.csv" env st)).log
            ∧ (copyResult env ("f.csv" ++ "_tmp") = CopyOutcome.ok →
                ∃ st', csv_to_table "t" "s" "f.csv" env st = Except.ok (st', none))
            ∧ (copyResult env ("f.csv" ++ "_tmp") = CopyOutcome.dataErr →
                ∃ st', csv_to_table "t" "s" "f.csv" env st
                    = Except.error (PyError.dataError, st'))
            ∧ (copyResult env ("f.csv" ++ "_tmp") = CopyOutcome.otherErr →
                ∃ st', csv_to_table "t" "s" "f.csv" env st
                    = Except.error (PyError.otherDbError, st'))) :=
  c3_retry_iff_data_error "t" "s" "f.csv" ⟨[("f.csv", CopyOutcome.dataErr)]⟩
    ⟨⟨[]⟩, ⟨[("f.csv", [["a", "b"], ["x", "y"]])]⟩, true, [], []⟩
    ["a", "b"] [["x", "y"]] rfl rfl rfl

/-- C1 witness: a concrete successful load of a two-column, two-row file
yields a two-row table with columns `[a, b]`, all text. -/
theorem c1_successful_load_witness :
    let run := csv_to_table "t" "s" "f.csv" ⟨[]⟩
      ⟨⟨[]⟩, ⟨[("f.csv", [["a", "b"], ["1", "2"], ["3", "4"]])]⟩, true, [], []⟩
    ∃ t, lookupTable (endState run).db "s" "t" = some t
      ∧ t.cols.map Column.name = ["a", "b"]
      ∧ (∀ c ∈ t.cols, c.ty = "text")
      ∧ t.rows.length = [["1", "2"], ["3", "4"]].length :=
  c1_successful_load_schema_and_rowcount "t" "s" "f.csv" ⟨[]⟩
    ⟨⟨[]⟩, ⟨[("f.csv", [["a", "b"], ["1", "2"], ["3", "4"]])]⟩, true, [], []⟩
    (endState (csv_to_table "t" "s" "f.csv" ⟨[]⟩
      ⟨⟨[]⟩, ⟨[("f.csv", [["a", "b"], ["1", "2"], ["3", "4"]])]⟩, true, [], []⟩))
    none ["a", "b"] [["1", "2"], ["3", "4"]] rfl rfl rfl

/-- C5 counterexample: when `engine.connect()` itself fails, `conn` is an
unbound local, so the `finally` block raises `NameError` at `conn.close()`
and `engine.dispose()` is never executed — the engine is not disposed on
this exit path, contrary to the claim. -/
theorem c5_counterexample :
    (main "f.csv" "t" "d" "s" ⟨[]⟩ false ⟨[]⟩ ⟨[]⟩).engineDisposed = false
      ∧ (main "f.csv" "t" "d" "s" ⟨[]⟩ false ⟨[]⟩ ⟨[]⟩).connClosed = false
      ∧ (main "f.csv" "t" "d" "s" ⟨[]⟩ false ⟨[]⟩ ⟨[]⟩).err
          = some PyError.nameError := by
  decide

/-- Cleanup characterization of `main` (supporting C5): whenever the
connection is acquired — success, file-not-found, or any later failure —
the `finally` block closes the connection and disposes the engine; but
when `engine.connect()` itself fails, the `finally` block trips over the
unbound `conn` (raising `NameError`) and the engine is never disposed. -/
theorem cleanup_iff_connected
    (fn tn d sc : String) (env : Env) (c : Bool) (db : DbState) (fs : FS) :
    (main fn tn d sc env c db fs).connClosed = c
      ∧ (main fn tn d sc env c db fs).engineDisposed = c
      ∧ (main fn tn d sc env false db fs).err = some PyError.nameError := by
  refine ⟨?_, ?_, by simp [main]⟩ <;>
  · cases c with
    | false => simp [main]
    | true =>
        cases hr : csv_to_table tn sc fn env (initState fn d sc tn db fs) with
        | ok out => simp [main, hr]
        | error es =>
            obtain ⟨e, st'⟩ := es
            cases e <;> simp [main, hr]

/-- C8 counterexample: a file whose first line is blank parses to a
zero-column header (`csv.reader` yields `[]`).  The run does not fail fast
with any invalid-header error: it drops the old table and issues
`CREATE TABLE s.t ()` — a zero-column table exists before the `COPY` step,
whose failure here is an ordinary database error, not an invalid-header
kind. -/
theorem c8_counterexample :
    let run := csv_to_table "t" "s" "b.csv" ⟨[("b.csv", CopyOutcome.otherErr)]⟩
      ⟨⟨[]⟩, ⟨[("b.csv", [[], ["a", "b"]])]⟩, true, [], []⟩
    run = Except.error (PyError.otherDbError, endState run)
      ∧ Stmt.create "s" "t" [] ∈ (endState run).log
      ∧ lookupTable (endState run).db "s" "t" = some ⟨[], []⟩ := by
  exact ⟨rfl, by decide, by decide⟩

/-- C8 amended: the code performs no header validation.  For every source
file whose first row parses to zero columns, the run proceeds past the
header read: it creates the destination table with an empty column list
before attempting `COPY`, and the only errors it can raise are the `COPY`
step's database errors — no invalid-header error kind exists. -/
theorem c8_amended_no_header_validation
    (tn sc fn : String) (env : Env) (st : LoadState)
    (rest : List (List String))
    (hconn : st.connOpen = true)
    (hfile : lookupFile st.fs fn = some ([] :: rest)) :
    Stmt.create sc tn [] ∈ (endState (csv_to_table tn sc fn env st)).log
      ∧ ∀ e st', csv_to_table tn sc fn env st = Except.error (e, st') →
          e = PyError.dataError ∨ e = PyError.otherDbError := by
  cases h1 : copyResult env fn with
  | ok =>
      simp only [csv_to_table, hconn, hfile, Bool.true_eq_false, if_false,
        List.head?_cons, h1, endState]
      exact ⟨by simp, by simp⟩
  | otherErr =>
      simp only [csv_to_table, hconn, hfile, Bool.true_eq_false, if_false,
        List.head?_cons, h1, endState]
      refine ⟨by simp, ?_⟩
      intro e st' he
      simp only [Except.error.injEq, Prod.mk.injEq] at he
      exact Or.inr he.1.symm
  | dataErr =>
      cases h2 : copyResult env (fn ++ "_tmp") with
      | ok =>
          simp only [csv_to_table, hconn, hfile, Bool.true_eq_false, if_false,
            List.head?_cons, h1, h2, endState]
          exact ⟨by simp, by simp⟩
      | dataErr =>
          simp only [csv_to_table, hconn, hfile, Bool.true_eq_false, if_false,
            List.head?_cons, h1, h2, endState]
          refine ⟨by simp, ?_⟩
          intro e st' he
          simp only [Except.error.injEq, Prod.mk.injEq] at he
          exact Or.inl he.1.symm
      | otherErr =>
          simp only [csv_to_table, hconn, hfile, Bool.true_eq_false, if_false,
            List.head?_cons, h1, h2, endState]
          refine ⟨by simp, ?_⟩
          intro e st' he
          simp only [Except.error.injEq, Prod.mk.injEq] at he
          exact Or.inr he.1.symm

/-- C8 witness: the amended theorem applied to the counterexample's run. -/
theorem c8_amended_witness :
    let run := csv_to_table "t" "s" "b.csv" ⟨[("b.csv", CopyOutcome.otherErr)]⟩
      ⟨⟨[]⟩, ⟨[("b.csv", [[], ["a", "b"]])]⟩, true, [], []⟩
    Stmt.create "s" "t" [] ∈ (endState run).log
      ∧ ∀ e st', csv_to_table "t" "s" "b.csv" ⟨[("b.csv", CopyOutcome.otherErr)]⟩
          ⟨⟨[]⟩, ⟨[("b.csv", [[], ["a", "b"]])]⟩, true, [], []⟩
          = Except.error (e, st') →
          e = PyError.dataError ∨ e = PyError.otherDbError :=
  c8_amended_no_header_validation "t" "s" "b.csv" ⟨[("b.csv", CopyOutcome.otherErr)]⟩
    ⟨⟨[]⟩, ⟨[("b.csv", [[], ["a", "b"]])]⟩, true, [], []⟩
    [["a", "b"]] rfl rfl

/-- Once the loop variable `metric` holds a value, every remaining project
is ranked with that same value. -/
theorem statsMetrics_some (m : String) (ps : List Project) :
    statsMetrics (some m) ps = ps.map (fun q => (q.project_name, m)) := by
  induction ps with
  | nil => rfl
  | cons p ps ih => simp [statsMetrics, ih]

/-- C10: in `get_project_stats`, when the `metric` argument is `None`, the
metric is assigned from the first project's own metric inside the loop, and
that same value is then used to rank models for every project in the list —
including every subsequent one — rather than each project's own default
metric. -/
theorem c10_metric_leaks_across_iterations (p : Project) (ps : List Project) :
    statsMetrics none (p :: ps)
      = (p :: ps).map (fun q => (q.project_name, p.metric)) := by
  simp [statsMetrics, statsMetrics_some]

theorem writeFile_writeFile_self (fs : FS) (p : String)
    (r r' : List (List String)) :
    writeFile (writeFile fs p r) p r' = writeFile fs p r' := by
  simp [writeFile, setAssoc_setAssoc_self]

/-- Re-running `csv_to_table` from the database and file system it left
behind reproduces that same database and file system: the destructive
drop/create makes the end state a fixed point. -/
theorem endState_restart (tn sc fn : String) (env : Env) (st st2 : LoadState)
    (hc : st.connOpen = true) (hc2 : st2.connOpen = true)
    (hdb : st2.db = (endState (csv_to_table tn sc fn env st)).db)
    (hfs : st2.fs = (endState (csv_to_table tn sc fn env st)).fs) :
    (endState (csv_to_table tn sc fn env st2)).db
        = (endState (csv_to_table tn sc fn env st)).db
      ∧ (endState (csv_to_table tn sc fn env st2)).fs
        = (endState (csv_to_table tn sc fn env st)).fs := by
  cases hf : lookupFile st.fs fn with
  | none =>
      have e1db : (endState (csv_to_table tn sc fn env st)).db
          = dropTable st.db sc tn := by
        simp [csv_to_table, hc, hf, endState]
      have e1fs : (endState (csv_to_table tn sc fn env st)).fs = st.fs := by
        simp [csv_to_table, hc, hf, endState]
      rw [e1db] at hdb
      rw [e1fs] at hfs
      have hf2 : lookupFile st2.fs fn = none := by rw [hfs]; exact hf
      rw [e1db, e1fs]
      constructor
      · simp [csv_to_table, hc2, hf2, endState, hdb, dropTable_dropTable]
      · simp [csv_to_table, hc2, hf2, hf, endState, hfs]
  | some rows =>
      cases rows with
      | nil =>
          have e1db : (endState (csv_to_table tn sc fn env st)).db
              = dropTable st.db sc tn := by
            simp [csv_to_table, hc, hf, endState]
          have e1fs : (endState (csv_to_table tn sc fn env st)).fs = st.fs := by
            simp [csv_to_table, hc, hf, endState]
          rw [e1db] at hdb
          rw [e1fs] at hfs
          have hf2 : lookupFile st2.fs fn = some [] := by rw [hfs]; exact hf
          rw [e1db, e1fs]
          constructor
          · simp [csv_to_table, hc2, hf2, endState, hdb, dropTable_dropTable]
          · simp [csv_to_table, hc2, hf2, hf, endState, hfs]
      | cons header dataRows =>
          cases h1 : copyResult env fn with
          | ok =>
              have e1db : (endState (csv_to_table tn sc fn env st)).db
                  = copyInto (createTable (dropTable st.db sc tn) sc tn header)
                      sc tn dataRows := by
                simp [csv_to_table, hc, hf, h1, endState]
              have e1fs : (endState (csv_to_table tn sc fn env st)).fs = st.fs := by
                simp [csv_to_table, hc, hf, h1, endState]
              rw [e1db] at hdb
              rw [e1fs] at hfs
              have hf2 : lookupFile st2.fs fn = some (header :: dataRows) := by
                rw [hfs]; exact hf
              rw [e1db, e1fs]
              constructor
              · simp [csv_to_table, hc2, hf2, h1, endState, hdb,
                  dropTable_copyInto, dropTable_createTable, dropTable_dropTable]
              · simp [csv_to_table, hc2, hf2, hf, h1, endState, hfs]
          | otherErr =>
              have e1db : (endState (csv_to_table tn sc fn env st)).db
                  = createTable (dropTable st.db sc tn) sc tn header := by
                simp [csv_to_table, hc, hf, h1, endState]
              have e1fs : (endState (csv_to_table tn sc fn env st)).fs = st.fs := by
                simp [csv_to_table, hc, hf, h1, endState]
              rw [e1db] at hdb
              rw [e1fs] at hfs
              have hf2 : lookupFile st2.fs fn = some (header :: dataRows) := by
                rw [hfs]; exact hf
              rw [e1db, e1fs]
              constructor
              · simp [csv_to_table, hc2, hf2, h1, endState, hdb,
                  dropTable_createTable, dropTable_dropTable]
              · simp [csv_to_table, hc2, hf2, hf, h1, endState, hfs]
          | dataErr =>
              have hfs1 : (endState (csv_to_table tn sc fn env st)).fs
                  = writeFile st.fs (fn ++ "_tmp") (header :: dataRows) := by
                cases h2 : copyResult env (fn ++ "_tmp") <;>
                  simp [csv_to_table, hc, hf, h1, h2, endState]
              rw [hfs1] at hfs
              have hf2 : lookupFile st2.fs fn = some (header :: dataRows) := by
                rw [hfs]
                rw [lookupFile_writeFile_ne _ _ _ _ (tmp_ne_self fn)]
                exact hf
              have hw2 : writeFile st2.fs (fn ++ "_tmp") (header :: dataRows)
                  = writeFile st.fs (fn ++ "_tmp") (header :: dataRows) := by
                rw [hfs, writeFile_writeFile_self]
              have hfW : lookupFile (writeFile st.fs (fn ++ "_tmp")
                  (header :: dataRows)) fn = some (header :: dataRows) := by
                rw [lookupFile_writeFile_ne _ _ _ _ (tmp_ne_self fn)]
                exact hf
              cases h2 : copyResult env (fn ++ "_tmp") with
              | ok =>
                  have e1db : (endState (csv_to_table tn sc fn env st)).db
                      = copyInto (createTable (dropTable st.db sc tn) sc tn header)
                          sc tn dataRows := by
                    simp [csv_to_table, hc, hf, h1, h2, endState]
                  rw [e1db] at hdb
                  rw [e1db, hfs1]
                  constructor
                  · simp [csv_to_table, hc2, hf2, h1, h2, endState, hdb,
                      dropTable_copyInto, dropTable_createTable, dropTable_dropTable]
                  · simp [csv_to_table, hc2, hf2, hf, hfW, h1, h2, endState, hw2, hfs, writeFile_writeFile_self]
              | dataErr =>
                  have e1db : (endState (csv_to_table tn sc fn env st)).db
                      = createTable (dropTable st.db sc tn) sc tn header := by
                    simp [csv_to_table, hc, hf, h1, h2, endState]
                  rw [e1db] at hdb
                  rw [e1db, hfs1]
                  constructor
                  · simp [csv_to_table, hc2, hf2, h1, h2, endState, hdb,
                      dropTable_createTable, dropTable_dropTable]
                  · simp [csv_to_table, hc2, hf2, hf, hfW, h1, h2, endState, hw2, hfs, writeFile_writeFile_self]
              | otherErr =>
                  have e1db : (endState (csv_to_table tn sc fn env st)).db
                      = createTable (dropTable st.db sc tn) sc tn header := by
                    simp [csv_to_table, hc, hf, h1, h2, endState]
                  rw [e1db] at hdb
                  rw [e1db, hfs1]
                  constructor
                  · simp [csv_to_table, hc2, hf2, h1, h2, endState, hdb,
                      dropTable_createTable, dropTable_dropTable]
                  · simp [csv_to_table, hc2, hf2, hf, hfW, h1, h2, endState, hw2, hfs, writeFile_writeFile_self]

/-- With the connection acquired, `main`'s final database and file system
are exactly those of the state `csv_to_table` carried out. -/
theorem main_endState (fn tn d sc : String) (env : Env) (db : DbState) (fs : FS) :
    (main fn tn d sc env true db fs).db
        = (endState (csv_to_table tn sc fn env (initState fn d sc tn db fs))).db
      ∧ (main fn tn d sc env true db fs).fs
        = (endState (csv_to_table tn sc fn env (initState fn d sc tn db fs))).fs := by
  cases hr : csv_to_table tn sc fn env (initState fn d sc tn db fs) with
  | ok out =>
      obtain ⟨st', r⟩ := out
      exact ⟨by simp [main, hr, endState], by simp [main, hr, endState]⟩
  | error es =>
      obtain ⟨e, st'⟩ := es
      cases e <;>
        exact ⟨by simp [main, hr, endState], by simp [main, hr, endState]⟩

/-- C6: invoking the load twice in succession with the same input file and
destination yields the same end state both times — the database, the file
system and in particular the target table's row count after the second
load equal those after the first (idempotence with respect to end state,
not cumulative append). -/
theorem c6_repeat_load_idempotent (fn tn d sc : String) (env : Env) (c : Bool)
    (db : DbState) (fs : FS) :
    (main fn tn d sc env c (main fn tn d sc env c db fs).db
        (main fn tn d sc env c db fs).fs).db
        = (main fn tn d sc env c db fs).db
      ∧ (main fn tn d sc env c (main fn tn d sc env c db fs).db
          (main fn tn d sc env c db fs).fs).fs
        = (main fn tn d sc env c db fs).fs
      ∧ rowCount (main fn tn d sc env c (main fn tn d sc env c db fs).db
          (main fn tn d sc env c db fs).fs).db sc tn
        = rowCount (main fn tn d sc env c db fs).db sc tn := by
  cases c with
  | false => exact ⟨by simp [main], by simp [main], by simp [main]⟩
  | true =>
      obtain ⟨m1db, m1fs⟩ := main_endState fn tn d sc env db fs
      obtain ⟨m2db, m2fs⟩ := main_endState fn tn d sc env
        (main fn tn d sc env true db fs).db (main fn tn d sc env true db fs).fs
      obtain ⟨hdb, hfs⟩ := endState_restart tn sc fn env
        (initState fn d sc tn db fs)
        (initState fn d sc tn (main fn tn d sc env true db fs).db
          (main fn tn d sc env true db fs).fs)
        rfl rfl (by simpa [initState] using m1db) (by simpa [initState] using m1fs)
      refine ⟨?_, ?_, ?_⟩
      · rw [m2db, hdb, m1db]
      · rw [m2fs, hfs, m1fs]
      · rw [m2db, hdb, m1db]

/-- A successful run leaves the destination table holding exactly the
source file's header (as text columns) and its data rows. -/
theorem load_success_table (tn sc fn : String) (env : Env)
    (st st' : LoadState) (r : Option Nat)
    (h2 : List String) (d2 : List (List String))
    (hc : st.connOpen = true)
    (hfile : lookupFile st.fs fn = some (h2 :: d2))
    (hok : csv_to_table tn sc fn env st = Except.ok (st', r)) :
    lookupTable st'.db sc tn = some ⟨h2.map (fun c => ⟨c, "text"⟩), d2⟩ := by
  cases h1 : copyResult env fn with
  | otherErr => simp [csv_to_table, hc, hfile, h1] at hok
  | ok =>
      simp only [csv_to_table, hc, hfile, Bool.true_eq_false, if_false,
        List.head?_cons, List.drop_succ_cons, List.drop_zero,
        Except.ok.injEq, Prod.mk.injEq, h1] at hok
      obtain ⟨hst, -⟩ := hok
      subst hst
      exact lookupTable_after_load st.db sc tn h2 d2
  | dataErr =>
      cases hb : copyResult env (fn ++ "_tmp") with
      | dataErr => simp [csv_to_table, hc, hfile, h1, hb] at hok
      | otherErr => simp [csv_to_table, hc, hfile, h1, hb] at hok
      | ok =>
          simp only [csv_to_table, hc, hfile, Bool.true_eq_false, if_false,
            List.head?_cons, List.drop_succ_cons, List.drop_zero,
            Except.ok.injEq, Prod.mk.injEq, h1, hb] at hok
          obtain ⟨hst, -⟩ := hok
          subst hst
          exact lookupTable_after_load st.db sc tn h2 d2

/-- When the source file exists, the run never raises `FileNotFoundError`. -/
theorem no_fileNotFound_of_found (tn sc fn : String) (env : Env)
    (st : LoadState) (rows : List (List String))
    (hc : st.connOpen = true)
    (hfile : lookupFile st.fs fn = some rows) :
    ∀ st', csv_to_table tn sc fn env st
        ≠ Except.error (PyError.fileNotFound, st') := by
  intro st'
  cases rows with
  | nil => simp [csv_to_table, hc, hfile]
  | cons h2 d2 =>
      cases h1 : copyResult env fn with
      | ok => simp [csv_to_table, hc, hfile, h1]
      | otherErr => simp [csv_to_table, hc, hfile, h1]
      | dataErr =>
          cases hb : copyResult env (fn ++ "_tmp") with
          | ok => simp [csv_to_table, hc, hfile, h1, hb]
          | dataErr => simp [csv_to_table, hc, hfile, h1, hb]
          | otherErr => simp [csv_to_table, hc, hfile, h1, hb]

/-- C7: loading `f1` and then `f2` into the same destination table leaves
the table determined solely by `f2`: whatever the first load (or the prior
database) left behind, after an error-free second load the table holds
exactly `f2`'s header columns and data rows, and its row count is `f2`'s
data-row count — no rows from the `f1` load remain. -/
theorem c7_second_load_determined_by_second_file
    (f1 f2 tn d sc : String) (env : Env) (db : DbState) (fs : FS)
    (h2 : List String) (d2 : List (List String))
    (hf2 : lookupFile (main f1 tn d sc env true db fs).fs f2 = some (h2 :: d2))
    (hok : (main f2 tn d sc env true (main f1 tn d sc env true db fs).db
        (main f1 tn d sc env true db fs).fs).err = none) :
    lookupTable (main f2 tn d sc env true (main f1 tn d sc env true db fs).db
        (main f1 tn d sc env true db fs).fs).db sc tn
        = some ⟨h2.map (fun c => ⟨c, "text"⟩), d2⟩
      ∧ rowCount (main f2 tn d sc env true (main f1 tn d sc env true db fs).db
          (main f1 tn d sc env true db fs).fs).db sc tn = d2.length := by
  set o1 := main f1 tn d sc env true db fs with ho1
  cases hr : csv_to_table tn sc f2 env (initState f2 d sc tn o1.db o1.fs) with
  | ok out =>
      obtain ⟨st', r⟩ := out
      have hdb : (main f2 tn d sc env true o1.db o1.fs).db = st'.db := by
        simp [main, hr]
      have ht := load_success_table tn sc f2 env
        (initState f2 d sc tn o1.db o1.fs) st' r h2 d2 rfl hf2 hr
      rw [hdb]
      exact ⟨ht, by simp [rowCount, ht]⟩
  | error es =>
      obtain ⟨e, st'⟩ := es
      cases e with
      | fileNotFound =>
          exact absurd hr (no_fileNotFound_of_found tn sc f2 env
            (initState f2 d sc tn o1.db o1.fs) (h2 :: d2) rfl hf2 st')
      | stopIteration => simp [main, hr] at hok
      | dataError => simp [main, hr] at hok
      | otherDbError => simp [main, hr] at hok
      | connClosed => simp [main, hr] at hok
      | nameError => simp [main, hr] at hok

/-- C7 witness: loading `a.csv` (two data rows) then `b.csv` (one data
row) into `s.t` leaves the table holding exactly `b.csv`'s column and row. -/
theorem c7_second_load_witness :
    lookupTable (main "b.csv" "t" "d" "s" ⟨[]⟩ true
        (main "a.csv" "t" "d" "s" ⟨[]⟩ true ⟨[]⟩
          ⟨[("a.csv", [["x"], ["1"], ["2"]]), ("b.csv", [["y"], ["9"]])]⟩).db
        (main "a.csv" "t" "d" "s" ⟨[]⟩ true ⟨[]⟩
          ⟨[("a.csv", [["x"], ["1"], ["2"]]), ("b.csv", [["y"], ["9"]])]⟩).fs).db
        "s" "t" = some ⟨["y"].map (fun c => ⟨c, "text"⟩), [["9"]]⟩
      ∧ rowCount (main "b.csv" "t" "d" "s" ⟨[]⟩ true
          (main "a.csv" "t" "d" "s" ⟨[]⟩ true ⟨[]⟩
            ⟨[("a.csv", [["x"], ["1"], ["2"]]), ("b.csv", [["y"], ["9"]])]⟩).db
          (main "a.csv" "t" "d" "s" ⟨[]⟩ true ⟨[]⟩
            ⟨[("a.csv", [["x"], ["1"], ["2"]]), ("b.csv", [["y"], ["9"]])]⟩).fs).db
          "s" "t" = [["9"]].length :=
  c7_second_load_determined_by_second_file "a.csv" "b.csv" "t" "d" "s" ⟨[]⟩ ⟨[]⟩
    ⟨[("a.csv", [["x"], ["1"], ["2"]]), ("b.csv", [["y"], ["9"]])]⟩
    ["y"] [["9"]] rfl rfl

end TsHelpers
